import Mathlib

/-!
Shallow embedding of the Raft-style consensus node implemented in
`src/node.py`, `src/server.py` and `src/utils.py` of the repository.

The Python `Node` class holds all per-peer mutable state; each method is
translated to a pure Lean function from the node state (plus the method's
arguments) to the updated state and the returned value.  Threading, the
network and wall-clock time are abstracted as follows:

* `threading.Lock` (`self.lock`) becomes the Boolean field `lockHeld`
  (held / released).
* `self.election_time` (a wall-clock deadline) is replaced by the counter
  `electionResets`: each call to `reset_timeout` increments it, so
  "the election timer was reset" is observable as a strict increase.
* Spawning of background threads (`send_vote_req`, `startHeartBeat`,
  `spread_update`, `init_timeout`'s timeout thread) does not change the
  node's own state; `incrementVote` reports whether `startHeartBeat` was
  invoked as an extra Boolean.
* In `handle_put`, the confirmation-vector polling loop is abstracted by
  the parameter `confirms`: the number of fellows whose confirmation
  arrives within the `MAX_LOG_WAIT` window.  The loop exits successfully
  iff `confirms + 1 ≥ majority` and otherwise times out and fails, which
  is exactly the loop's behaviour for a fixed final confirmation count.

Python dictionaries `{key, value}` used as log entries / payloads become
the structure `Entry`; `None` becomes `Option.none`.  The truthiness test
`if staged:` on a payload dict (always non-empty when present) becomes
`Option.isSome`.
-/

/-- A log entry / client payload `{key, value}` (both strings over HTTP+JSON). -/
structure Entry where
  key : String
  value : String
deriving DecidableEq

/-- Node roles. In `node.py` these are the integer constants
`FOLLOWER = 0`, `CANDIDATE = 1`, `LEADER = 2`. -/
inductive Status where
  | FOLLOWER
  | CANDIDATE
  | LEADER
deriving DecidableEq

/-- The mutable state of the Python `Node` object (`node.py`, `__init__`).
`DB` models the Python dict `self.DB` as a partial map. -/
structure Node where
  addr : String
  fellow : List String
  lockHeld : Bool
  DB : String → Option String
  log : List Entry
  staged : Option Entry
  term : Nat
  status : Status
  voteCount : Nat
  commitIdx : Nat
  majority : Nat
  leader : Option String
  electionResets : Nat

/-- `Node.reset_timeout` (`node.py` line 166): draws a fresh election
deadline.  Modeled as incrementing the reset counter. -/
def Node.reset_timeout (n : Node) : Node :=
  { n with electionResets := n.electionResets + 1 }

/-- `Node.init_timeout` (`node.py` line 205): resets the timeout and
ensures the timeout thread runs.  Only the reset is state on the node. -/
def Node.init_timeout (n : Node) : Node :=
  n.reset_timeout

/-- `Node.__init__` (`node.py` lines 26-44).  Note that the majority here
is `len(self.fellow) // 2 + 1`, computed over the fellows only. -/
def Node.init (fellow : List String) (my_ip : String) : Node :=
  Node.init_timeout
    { addr := my_ip
      fellow := fellow
      lockHeld := false
      DB := fun _ => none
      log := []
      staged := none
      term := 0
      status := Status.FOLLOWER
      voteCount := 0
      commitIdx := 0
      majority := fellow.length / 2 + 1
      leader := none
      electionResets := 0 }

/-- `Node.incrementVote` (`node.py` lines 46-56).  Returns the new state
and whether the node became leader this call (i.e. `startHeartBeat` was
invoked).  The Python code checks only `voteCount >= majority`; it does
not check that the node is a candidate. -/
def Node.incrementVote (n : Node) : Node × Bool :=
  let n1 := { n with voteCount := n.voteCount + 1 }
  if n1.majority ≤ n1.voteCount then
    ({ n1 with status := Status.LEADER, leader := some n1.addr }, true)
  else
    (n1, false)

/-- `Node.startElection` (`node.py` lines 58-70).  `send_vote_req` only
spawns request threads and is not part of the local state change. -/
def Node.startElection (n : Node) : Node :=
  Node.init_timeout
    { n with
      term := n.term + 1
      voteCount := 1
      status := Status.CANDIDATE
      leader := none
      majority := (n.fellow.length + 1) / 2 + 1 }

/-- `Node.decide_vote` (`node.py` lines 114-125).  Returns the reply pair
`(choice, term)` together with the updated receiver state; `vote_req` in
`server.py` (lines 115-131) forwards exactly this pair as
`{"choice": choice, "term": term}`. -/
def Node.decide_vote (n : Node) (term commitIdx : Nat) (staged : Option Entry) :
    Bool × Nat × Node :=
  if n.term < term ∧ n.commitIdx ≤ commitIdx ∧
      (staged.isSome = true ∨ n.staged = staged) then
    let n1 := { n.reset_timeout with term := term }
    (true, n1.term, n1)
  else
    (false, n.term, n)

/-- `Node.heartbeat_reply_handler` (`node.py` lines 156-164): step down
on a strictly higher term in a heartbeat reply. -/
def Node.heartbeat_reply_handler (n : Node) (term commitIdx : Nat) : Node :=
  if n.term < term then
    Node.init_timeout { n with term := term, status := Status.FOLLOWER }
  else
    n

/-- Commit the entry `e` (`Node.commit`, `node.py` lines 299-309, with
`self.staged = e`): bump `commitIdx`, append to the log, write the
key/value pair into the map, clear the staged slot. -/
def Node.commitWith (n : Node) (e : Entry) : Node :=
  { n with
    commitIdx := n.commitIdx + 1
    log := n.log ++ [e]
    DB := fun k => if k = e.key then some e.value else n.DB k
    staged := none }

/-- `Node.commit` (`node.py` lines 299-309).  When `staged` is `None` the
Python code raises `TypeError` on `self.staged["key"]`; that path is
modeled as `none`.  All call sites establish that `staged` is set. -/
def Node.commit (n : Node) : Option Node :=
  n.staged.map n.commitWith

/-- An incoming heartbeat message.  The code's heartbeat senders either
send `{term, addr}` alone (`send_heartbeat`, lines 139-154) or add the
three fields `action`, `payload`, `commitIdx` together (`handle_put`'s
log and commit messages, lines 269-293); `action` bundles the optional
triple. -/
structure HBMsg where
  term : Nat
  addr : String
  action : Option (String × Entry × Nat)

/-- First block of `Node.heartbeat_follower` (`node.py` lines 179-180):
adopt the sender as leader and reset the election timer. -/
def Node.hbAdopt (n : Node) (msg : HBMsg) : Node :=
  Node.reset_timeout { n with leader := some msg.addr }

/-- Second block of `Node.heartbeat_follower` (`node.py` lines 182-188):
a candidate steps down to follower; a leader steps down to follower and
re-initialises its timeout. -/
def Node.hbStatus (n : Node) : Node :=
  if n.status = Status.CANDIDATE then
    { n with status := Status.FOLLOWER }
  else if n.status = Status.LEADER then
    Node.init_timeout { n with status := Status.FOLLOWER }
  else n

/-- Third block of `Node.heartbeat_follower` (`node.py` lines 190-191):
adopt a strictly larger message term. -/
def Node.hbTerm (n : Node) (t : Nat) : Node :=
  if n.term < t then { n with term := t } else n

/-- Fourth block of `Node.heartbeat_follower` (`node.py` lines 193-201):
apply the optional replication directive.  A "log" action overwrites the
staged slot; any other action with `commitIdx ≤ msg.commitIdx` fills the
staged slot from the payload when it is empty, then calls `commit` —
`staged` is set in both cases, so `commit` is the total `commitWith`. -/
def Node.hbAction (n : Node) (action : Option (String × Entry × Nat)) : Node :=
  match action with
  | none => n
  | some (act, payload, msgCommitIdx) =>
    if act = "log" then
      { n with staged := some payload }
    else if n.commitIdx ≤ msgCommitIdx then
      match n.staged with
      | some e => n.commitWith e
      | none => Node.commitWith { n with staged := some payload } payload
    else n

/-- `Node.heartbeat_follower` (`node.py` lines 173-203).  Returns the
reply pair `(term, commitIdx)` and the updated state; the `/heartbeat`
route in `server.py` (lines 134-147) forwards the pair as JSON.  All
four inner blocks run only under `self.term <= term`. -/
def Node.heartbeat_follower (n : Node) (msg : HBMsg) : Nat × Nat × Node :=
  if n.term ≤ msg.term then
    let n4 := ((((n.hbAdopt msg).hbStatus).hbTerm msg.term).hbAction msg.action)
    (n4.term, n4.commitIdx, n4)
  else
    (n.term, n.commitIdx, n)

/-- The reply payload of `Node.handle_get`: the request payload with the
looked-up `value` field added. -/
structure GetReply where
  key : String
  value : String
deriving DecidableEq

/-- `Node.handle_get` (`node.py` lines 231-240). -/
def Node.handle_get (n : Node) (key : String) : Option GetReply :=
  match n.DB key with
  | some v => some { key := key, value := v }
  | none => none

/-- `Node.handle_put` (`node.py` lines 261-297).  `confirms` is the
number of fellows whose log confirmation arrives within `MAX_LOG_WAIT`
milliseconds: the polling loop succeeds iff `confirms + 1 ≥ majority`,
otherwise the cumulative wait exceeds the deadline, the lock is released
and `False` is returned with the staged entry still in place.  On success
the code calls `commit` with `staged = payload` (just set under the
lock), i.e. `commitWith payload`, and the spread thread releases the
lock. -/
def Node.handle_put (n : Node) (payload : Entry) (confirms : Nat) : Bool × Node :=
  let n1 := { n with lockHeld := true, staged := some payload }
  if confirms + 1 < n1.majority then
    (false, { n1 with lockHeld := false })
  else
    (true, { n1.commitWith payload with lockHeld := false })

/-- `Node.handle_delete` (`node.py` lines 322-339). -/
def Node.handle_delete (n : Node) (key : String) : Bool × Node :=
  match n.DB key with
  | some _ => (true, { n with DB := fun k => if k = key then none else n.DB k })
  | none => (false, n)

/-- Python's `random.randrange(low, high)` on naturals: a value in
`[low, high)` determined by the draw; raises `ValueError` (here `none`)
when the range `[low, high)` is empty. -/
def randrange (low high draw : Nat) : Option Nat :=
  if low < high then some (low + draw % (high - low)) else none

/-- `random_timeout` (`utils.py` lines 5-19): swap the bounds when
`LOW_TIMEOUT > HIGH_TIMEOUT`, draw `randrange(low, high)` milliseconds
and return it divided by 1000 (seconds). -/
def random_timeout (lowT highT draw : Nat) : Option ℚ :=
  let p := if highT < lowT then (highT, lowT) else (lowT, highT)
  (randrange p.1 p.2 draw).map (fun v => (v : ℚ) / 1000)

/-- The per-node log/commit coupling: the committed log's length equals
`commitIdx`. -/
def Node.logInv (n : Node) : Prop :=
  n.log.length = n.commitIdx

example : (Node.init ["a", "b"] "me").majority = 2 := by decide
example : (Node.init ["a"] "me").majority = 1 := by decide
example : (Node.init ["a"] "me").term = 0 := by decide

/-! Helper lemmas about the heartbeat stages and `commitWith`. -/

lemma hbAdopt_term (n : Node) (msg : HBMsg) : (n.hbAdopt msg).term = n.term := rfl

lemma hbAdopt_status (n : Node) (msg : HBMsg) :
    (n.hbAdopt msg).status = n.status := rfl

lemma hbAdopt_log (n : Node) (msg : HBMsg) : (n.hbAdopt msg).log = n.log := rfl

lemma hbAdopt_commitIdx (n : Node) (msg : HBMsg) :
    (n.hbAdopt msg).commitIdx = n.commitIdx := rfl

lemma hbStatus_term (n : Node) : n.hbStatus.term = n.term := by
  unfold Node.hbStatus Node.init_timeout Node.reset_timeout
  repeat' split
  all_goals rfl

lemma hbStatus_log (n : Node) : n.hbStatus.log = n.log := by
  unfold Node.hbStatus Node.init_timeout Node.reset_timeout
  repeat' split
  all_goals rfl

lemma hbStatus_commitIdx (n : Node) : n.hbStatus.commitIdx = n.commitIdx := by
  unfold Node.hbStatus Node.init_timeout Node.reset_timeout
  repeat' split
  all_goals rfl

lemma hbStatus_status (n : Node) : n.hbStatus.status = Status.FOLLOWER := by
  unfold Node.hbStatus Node.init_timeout Node.reset_timeout
  rcases h : n.status <;> simp [h]

lemma hbTerm_status (n : Node) (t : Nat) : (n.hbTerm t).status = n.status := by
  unfold Node.hbTerm
  split
  all_goals rfl

lemma hbTerm_log (n : Node) (t : Nat) : (n.hbTerm t).log = n.log := by
  unfold Node.hbTerm
  split
  all_goals rfl

lemma hbTerm_commitIdx (n : Node) (t : Nat) :
    (n.hbTerm t).commitIdx = n.commitIdx := by
  unfold Node.hbTerm
  split
  all_goals rfl

lemma hbTerm_term_le (n : Node) (t : Nat) : n.term ≤ (n.hbTerm t).term := by
  unfold Node.hbTerm
  split
  · rename_i h
    exact Nat.le_of_lt h
  · exact Nat.le_refl _

lemma commitWith_term (n : Node) (e : Entry) : (n.commitWith e).term = n.term := rfl

lemma commitWith_status (n : Node) (e : Entry) :
    (n.commitWith e).status = n.status := rfl

lemma commitWith_log (n : Node) (e : Entry) :
    (n.commitWith e).log = n.log ++ [e] := rfl

lemma commitWith_commitIdx (n : Node) (e : Entry) :
    (n.commitWith e).commitIdx = n.commitIdx + 1 := rfl

lemma hbAction_term (n : Node) (a : Option (String × Entry × Nat)) :
    (n.hbAction a).term = n.term := by
  unfold Node.hbAction
  rcases a with _ | ⟨act, payload, mIdx⟩
  · rfl
  · dsimp only
    repeat' split
    all_goals rfl

lemma hbAction_status (n : Node) (a : Option (String × Entry × Nat)) :
    (n.hbAction a).status = n.status := by
  unfold Node.hbAction
  rcases a with _ | ⟨act, payload, mIdx⟩
  · rfl
  · dsimp only
    repeat' split
    all_goals rfl

lemma hbAction_logInv (n : Node) (a : Option (String × Entry × Nat))
    (h : n.logInv) : (n.hbAction a).logInv := by
  unfold Node.hbAction
  rcases a with _ | ⟨act, payload, mIdx⟩
  · exact h
  · dsimp only
    repeat' split
    all_goals simp_all [Node.logInv, Node.commitWith]

/-- C1: `decide_vote` grants exactly when
`receiver.term < request.term ∧ receiver.commitIdx ≤ request.commitIdx ∧
(request.staged non-empty ∨ receiver.staged = request.staged)`; on grant
it adopts the request term, resets the election timer and replies
`(true, currentTerm)`; on denial it replies `(false, currentTerm)` and
changes nothing. -/
theorem decide_vote_spec (n : Node) (T c : Nat) (s : Option Entry) :
    ((n.decide_vote T c s).1 = true ↔
      (n.term < T ∧ n.commitIdx ≤ c ∧ (s.isSome = true ∨ n.staged = s))) ∧
    ((n.decide_vote T c s).1 = true →
      (n.decide_vote T c s).2.2.term = T ∧
      n.electionResets < (n.decide_vote T c s).2.2.electionResets ∧
      (n.decide_vote T c s).2.1 = (n.decide_vote T c s).2.2.term) ∧
    ((n.decide_vote T c s).1 = false →
      (n.decide_vote T c s).2.1 = n.term ∧ (n.decide_vote T c s).2.2 = n) := by
  unfold Node.decide_vote
  split
  · rename_i h
    simp [Node.reset_timeout, h]
  · rename_i h
    simp [h]

/-- Witness for C1: a concrete grant and a concrete denial. -/
theorem decide_vote_spec_witness :
    ((Node.init ["a"] "me").decide_vote 1 0 (some ⟨"x", "1"⟩)).2.2.term = 1 ∧
    ((Node.init ["a"] "me").decide_vote 0 0 none).2.1 =
      (Node.init ["a"] "me").term :=
  ⟨((decide_vote_spec (Node.init ["a"] "me") 1 0 (some ⟨"x", "1"⟩)).2.1
      (by decide)).1,
   ((decide_vote_spec (Node.init ["a"] "me") 0 0 none).2.2 (by decide)).1⟩

/-- C4 counterexample: with one fellow (a two-node cluster), the majority
computed at startup is `1 // 2 + 1 = 1` and not
`⌊total/2⌋ + 1 = (1 + 1) / 2 + 1 = 2` as the claim states. -/
theorem init_majority_not_total_formula :
    ¬ ((Node.init ["p"] "me").majority =
        ((["p"] : List String).length + 1) / 2 + 1) := by decide

/-- C4 amended: at startup the majority is `len(fellow) / 2 + 1` (fellows
only); when an election starts it is recomputed as
`(len(fellow) + 1) / 2 + 1 = ⌊total/2⌋ + 1` with `total = len(fellow)+1`;
the two formulas agree exactly when the number of fellows is even. -/
theorem majority_formulas :
    (∀ fellow my_ip, (Node.init fellow my_ip).majority = fellow.length / 2 + 1) ∧
    (∀ n : Node, n.startElection.majority = (n.fellow.length + 1) / 2 + 1) ∧
    (∀ fellow (my_ip : String), fellow.length % 2 = 0 →
      (Node.init fellow my_ip).majority = (fellow.length + 1) / 2 + 1) := by
  refine ⟨fun _ _ => rfl, fun _ => rfl, fun fellow my_ip h => ?_⟩
  show fellow.length / 2 + 1 = (fellow.length + 1) / 2 + 1
  omega

/-- Witness for C4's amended theorem at a two-fellow roster. -/
theorem majority_formulas_witness :
    (Node.init ["a", "b"] "me").majority =
      ((["a", "b"] : List String).length + 1) / 2 + 1 :=
  majority_formulas.2.2 ["a", "b"] "me" (by decide)

/-- C5: `term` starts at 0 and is non-decreasing under starting an
election, deciding a vote, handling a heartbeat, and handling a
heartbeat reply. -/
theorem term_monotone :
    (∀ fellow my_ip, (Node.init fellow my_ip).term = 0) ∧
    (∀ n : Node, n.term ≤ n.startElection.term) ∧
    (∀ n T c s, n.term ≤ (Node.decide_vote n T c s).2.2.term) ∧
    (∀ n msg, n.term ≤ (Node.heartbeat_follower n msg).2.2.term) ∧
    (∀ n T c, n.term ≤ (Node.heartbeat_reply_handler n T c).term) := by
  refine ⟨fun _ _ => rfl, fun n => Nat.le_succ _, fun n T c s => ?_,
    fun n msg => ?_, fun n T c => ?_⟩
  · unfold Node.decide_vote
    split
    · rename_i h
      exact Nat.le_of_lt h.1
    · exact Nat.le_refl _
  · unfold Node.heartbeat_follower
    dsimp only
    split
    · rw [hbAction_term]
      have h1 : ((n.hbAdopt msg).hbStatus).term = n.term := by
        rw [hbStatus_term, hbAdopt_term]
      rw [← h1]
      exact hbTerm_term_le _ _
    · exact Nat.le_refl _
  · unfold Node.heartbeat_reply_handler
    split
    · rename_i h
      exact Nat.le_of_lt h
    · exact Nat.le_refl _

/-- A follower one vote short of the majority threshold, used to
exercise `incrementVote`. -/
def followerNearMajority : Node :=
  { Node.init ["a", "b"] "me" with voteCount := 1 }

/-- C2 counterexample: `incrementVote` checks only `voteCount >= majority`
(`node.py` line 52) and never the role, so a FOLLOWER whose bumped tally
reaches the majority becomes LEADER. -/
theorem incrementVote_no_candidate_check :
    (followerNearMajority.incrementVote).1.status = Status.LEADER ∧
    followerNearMajority.status ≠ Status.CANDIDATE := by decide

/-- C2 amended: `incrementVote` always bumps the tally and transitions
the node to leader exactly when the bumped tally reaches the majority or
it already was leader, regardless of its role; on reaching the majority
it sets leader to itself and invokes `startHeartBeat`.  The role =
candidate guard lives in the caller (`ask_for_vote`, `node.py` line 100),
not in `incrementVote`. -/
theorem incrementVote_spec (n : Node) :
    ((n.incrementVote).1.voteCount = n.voteCount + 1) ∧
    ((n.incrementVote).1.status = Status.LEADER ↔
      (n.majority ≤ n.voteCount + 1 ∨ n.status = Status.LEADER)) ∧
    (n.majority ≤ n.voteCount + 1 →
      (n.incrementVote).1.leader = some n.addr ∧ (n.incrementVote).2 = true) := by
  unfold Node.incrementVote
  dsimp only
  split
  · rename_i h
    simp_all
  · rename_i h
    simp_all

/-- Witness for C2's amended theorem: the near-majority follower reaches
the threshold, points leader at itself and starts heartbeats. -/
theorem incrementVote_spec_witness :
    (followerNearMajority.incrementVote).1.leader = some "me" ∧
    (followerNearMajority.incrementVote).2 = true :=
  (incrementVote_spec followerNearMajority).2.2 (by decide)

/-- A leader at term 5 in a two-node cluster, used to exercise
`heartbeat_follower`. -/
def leaderAtFive : Node :=
  { Node.init ["a"] "me" with
    status := Status.LEADER, term := 5, leader := some "me" }

/-- C3 counterexample: the whole handler body runs under
`self.term <= term` (`node.py` line 178), so a heartbeat whose term
merely equals the leader's current term already demotes it to follower,
contradicting the claim that an equal-term heartbeat leaves the role
unchanged. -/
theorem leader_steps_down_on_equal_term :
    leaderAtFive.status = Status.LEADER ∧ leaderAtFive.term = 5 ∧
    (leaderAtFive.heartbeat_follower ⟨5, "other", none⟩).2.2.status =
      Status.FOLLOWER := by decide

/-- C3 amended: a leader processing an incoming heartbeat steps down to
follower exactly when the message term is greater than **or equal to**
its current term; only a strictly smaller message term leaves the role
unchanged. -/
theorem leader_stepdown_iff (n : Node) (msg : HBMsg)
    (h : n.status = Status.LEADER) :
    ((n.heartbeat_follower msg).2.2.status = Status.FOLLOWER ↔
      n.term ≤ msg.term) := by
  unfold Node.heartbeat_follower
  dsimp only
  split
  · rename_i hle
    simp [hbAction_status, hbTerm_status, hbStatus_status, hle]
  · rename_i hgt
    simp [h, hgt]

/-- Witness for C3's amended theorem at the equal-term heartbeat. -/
theorem leader_stepdown_iff_witness :
    ((leaderAtFive.heartbeat_follower ⟨5, "other", none⟩).2.2.status =
        Status.FOLLOWER ↔ leaderAtFive.term ≤ 5) :=
  leader_stepdown_iff leaderAtFive ⟨5, "other", none⟩ (by decide)

/-- C10: a vote granted for term `T` sets the receiver's term to `T`, and
after that every request with term ≤ `T` (including `T` itself) is
denied; a denied request leaves term, staged slot and commitIdx
unchanged. -/
theorem one_vote_per_term (n : Node) (T c : Nat) (s : Option Entry) :
    ((n.decide_vote T c s).1 = true →
      (n.decide_vote T c s).2.2.term = T ∧
      ∀ T2 c2 s2, T2 ≤ T →
        (((n.decide_vote T c s).2.2).decide_vote T2 c2 s2).1 = false) ∧
    ((n.decide_vote T c s).1 = false →
      (n.decide_vote T c s).2.2.term = n.term ∧
      (n.decide_vote T c s).2.2.staged = n.staged ∧
      (n.decide_vote T c s).2.2.commitIdx = n.commitIdx) := by
  unfold Node.decide_vote
  split
  · rename_i hg
    dsimp only
    refine ⟨fun _ => ⟨rfl, fun T2 c2 s2 hle => ?_⟩, fun hfalse => by simp at hfalse⟩
    split
    · rename_i hcon
      have hTT2 : T < T2 := hcon.1
      omega
    · rfl
  · rename_i hg
    exact ⟨fun htrue => by simp at htrue, fun _ => ⟨rfl, rfl, rfl⟩⟩

/-- Witness for C10: after granting term 3, the same node denies a second
request for term 3. -/
theorem one_vote_per_term_witness :
    ((((Node.init ["a"] "me").decide_vote 3 0 (some ⟨"x", "1"⟩)).2.2).decide_vote
        3 0 (some ⟨"x", "1"⟩)).1 = false :=
  ((one_vote_per_term (Node.init ["a"] "me") 3 0 (some ⟨"x", "1"⟩)).1
      (by decide)).2 3 0 (some ⟨"x", "1"⟩) (by decide)

/-- C6: `commit` increments commitIdx and the log length together;
`len(log) = commitIdx` holds at startup and is preserved by every
operation; and the operations that do not invoke `commit` (starting an
election, deciding a vote, incrementing the vote tally, handling a
heartbeat reply, handling a heartbeat without a replication directive,
failing a put, deleting a key, reading a key) leave both the log and
commitIdx unchanged. -/
theorem log_length_tracks_commitIdx :
    (∀ n n1 : Node, n.commit = some n1 →
      n1.log.length = n.log.length + 1 ∧ n1.commitIdx = n.commitIdx + 1) ∧
    (∀ fellow my_ip, (Node.init fellow my_ip).logInv) ∧
    (∀ n : Node, n.logInv → n.startElection.logInv) ∧
    (∀ (n : Node) T c s, n.logInv → ((n.decide_vote T c s).2.2).logInv) ∧
    (∀ n : Node, n.logInv → ((n.incrementVote).1).logInv) ∧
    (∀ (n : Node) msg, n.logInv → ((n.heartbeat_follower msg).2.2).logInv) ∧
    (∀ (n : Node) T c, n.logInv → (n.heartbeat_reply_handler T c).logInv) ∧
    (∀ n n1 : Node, n.commit = some n1 → n.logInv → n1.logInv) ∧
    (∀ (n : Node) p confirms, n.logInv → ((n.handle_put p confirms).2).logInv) ∧
    (∀ (n : Node) key, n.logInv → ((n.handle_delete key).2).logInv) ∧
    (∀ n : Node,
      n.startElection.log = n.log ∧ n.startElection.commitIdx = n.commitIdx) ∧
    (∀ (n : Node) T c s, (n.decide_vote T c s).2.2.log = n.log ∧
      (n.decide_vote T c s).2.2.commitIdx = n.commitIdx) ∧
    (∀ n : Node, (n.incrementVote).1.log = n.log ∧
      (n.incrementVote).1.commitIdx = n.commitIdx) ∧
    (∀ (n : Node) T c, (n.heartbeat_reply_handler T c).log = n.log ∧
      (n.heartbeat_reply_handler T c).commitIdx = n.commitIdx) ∧
    (∀ (n : Node) (msg : HBMsg), msg.action = none →
      (n.heartbeat_follower msg).2.2.log = n.log ∧
      (n.heartbeat_follower msg).2.2.commitIdx = n.commitIdx) ∧
    (∀ (n : Node) p confirms, (n.handle_put p confirms).1 = false →
      (n.handle_put p confirms).2.log = n.log ∧
      (n.handle_put p confirms).2.commitIdx = n.commitIdx) ∧
    (∀ (n : Node) key, (n.handle_delete key).2.log = n.log ∧
      (n.handle_delete key).2.commitIdx = n.commitIdx) := by
  have hcommit : ∀ n n1 : Node, n.commit = some n1 →
      n1.log.length = n.log.length + 1 ∧ n1.commitIdx = n.commitIdx + 1 := by
    intro n n1 hc
    unfold Node.commit at hc
    rcases hs : n.staged with _ | e
    · rw [hs] at hc
      have hc2 : (none : Option Node) = some n1 := hc
      cases hc2
    · rw [hs] at hc
      have hc2 : some (n.commitWith e) = some n1 := hc
      cases hc2
      simp [Node.commitWith]
  have hdv : ∀ (n : Node) T c s, (n.decide_vote T c s).2.2.log = n.log ∧
      (n.decide_vote T c s).2.2.commitIdx = n.commitIdx := by
    intro n T c s
    unfold Node.decide_vote
    split
    · exact ⟨rfl, rfl⟩
    · exact ⟨rfl, rfl⟩
  have hiv : ∀ n : Node, (n.incrementVote).1.log = n.log ∧
      (n.incrementVote).1.commitIdx = n.commitIdx := by
    intro n
    unfold Node.incrementVote
    dsimp only
    split
    · exact ⟨rfl, rfl⟩
    · exact ⟨rfl, rfl⟩
  have hhrh : ∀ (n : Node) T c, (n.heartbeat_reply_handler T c).log = n.log ∧
      (n.heartbeat_reply_handler T c).commitIdx = n.commitIdx := by
    intro n T c
    unfold Node.heartbeat_reply_handler Node.init_timeout Node.reset_timeout
    split
    · exact ⟨rfl, rfl⟩
    · exact ⟨rfl, rfl⟩
  have hhb : ∀ (n : Node) msg, n.logInv → ((n.heartbeat_follower msg).2.2).logInv := by
    intro n msg h
    unfold Node.heartbeat_follower
    dsimp only
    split
    · refine hbAction_logInv _ _ ?_
      unfold Node.logInv at h ⊢
      rw [hbTerm_log, hbTerm_commitIdx, hbStatus_log, hbStatus_commitIdx,
        hbAdopt_log, hbAdopt_commitIdx]
      exact h
    · exact h
  have hput : ∀ (n : Node) p confirms, n.logInv →
      ((n.handle_put p confirms).2).logInv := by
    intro n p confirms h
    unfold Node.handle_put
    dsimp only
    split
    · exact h
    · unfold Node.logInv at h ⊢
      simp [Node.commitWith]
      exact h
  have hdel : ∀ (n : Node) key, (n.handle_delete key).2.log = n.log ∧
      (n.handle_delete key).2.commitIdx = n.commitIdx := by
    intro n key
    unfold Node.handle_delete
    rcases n.DB key with _ | v
    · exact ⟨rfl, rfl⟩
    · exact ⟨rfl, rfl⟩
  refine ⟨hcommit, fun _ _ => rfl, ?_, ?_, ?_, hhb, ?_, ?_, hput, ?_, ?_, hdv,
    hiv, hhrh, ?_, ?_, hdel⟩
  · intro n h
    unfold Node.logInv at h ⊢
    exact h
  · intro n T c s h
    unfold Node.logInv at h ⊢
    rw [(hdv n T c s).1, (hdv n T c s).2]
    exact h
  · intro n h
    unfold Node.logInv at h ⊢
    rw [(hiv n).1, (hiv n).2]
    exact h
  · intro n T c h
    unfold Node.logInv at h ⊢
    rw [(hhrh n T c).1, (hhrh n T c).2]
    exact h
  · intro n n1 hc h
    unfold Node.logInv at h ⊢
    have := hcommit n n1 hc
    omega
  · intro n key h
    unfold Node.logInv at h ⊢
    rw [(hdel n key).1, (hdel n key).2]
    exact h
  · exact fun _ => ⟨rfl, rfl⟩
  · intro n msg hnone
    unfold Node.heartbeat_follower
    dsimp only
    split
    · rw [hnone]
      show ((((n.hbAdopt msg).hbStatus).hbTerm msg.term).hbAction none).log = n.log ∧
        ((((n.hbAdopt msg).hbStatus).hbTerm msg.term).hbAction none).commitIdx = n.commitIdx
      unfold Node.hbAction
      rw [hbTerm_log, hbTerm_commitIdx, hbStatus_log, hbStatus_commitIdx,
        hbAdopt_log, hbAdopt_commitIdx]
      exact ⟨rfl, rfl⟩
    · exact ⟨rfl, rfl⟩
  · intro n p confirms hfail
    unfold Node.handle_put at hfail ⊢
    dsimp only at hfail ⊢
    split at hfail
    · rename_i hlt
      rw [if_pos hlt]
      exact ⟨rfl, rfl⟩
    · simp at hfail

/-- A fresh single-node peer holding a staged entry, used to exercise
`commit`. -/
def stagedNode : Node :=
  { Node.init [] "me" with staged := some ⟨"x", "1"⟩ }

/-- Witness for C6: committing a concrete staged entry bumps the log
length and commitIdx together. -/
theorem log_length_tracks_commitIdx_witness :
    (stagedNode.commitWith ⟨"x", "1"⟩).log.length = stagedNode.log.length + 1 :=
  (log_length_tracks_commitIdx.1 stagedNode (stagedNode.commitWith ⟨"x", "1"⟩)
    (by rfl)).1

/-- C7: on the leader write path, when fewer than `majority - 1` fellows
confirm within the `MAX_LOG_WAIT` window, `handle_put` returns failure
with the write-serialization gate released, leaving the committed log,
commitIdx and the key/value map unchanged while the staged slot still
holds the entry. -/
theorem handle_put_quorum_failure (n : Node) (p : Entry) (confirms : Nat)
    (h : confirms + 1 < n.majority) :
    (n.handle_put p confirms).1 = false ∧
    (n.handle_put p confirms).2.lockHeld = false ∧
    (n.handle_put p confirms).2.log = n.log ∧
    (n.handle_put p confirms).2.commitIdx = n.commitIdx ∧
    (n.handle_put p confirms).2.DB = n.DB ∧
    (n.handle_put p confirms).2.staged = some p := by
  unfold Node.handle_put
  dsimp only
  split
  · exact ⟨rfl, rfl, rfl, rfl, rfl, rfl⟩
  · rename_i hneg
    exact absurd h hneg

/-- Witness for C7: a four-node cluster leader (majority 2 at startup)
with zero confirmations fails the put and keeps its state. -/
theorem handle_put_quorum_failure_witness :
    ((Node.init ["a", "b", "c"] "me").handle_put ⟨"x", "1"⟩ 0).1 = false ∧
    ((Node.init ["a", "b", "c"] "me").handle_put ⟨"x", "1"⟩ 0).2.staged =
      some ⟨"x", "1"⟩ := by
  have h := handle_put_quorum_failure (Node.init ["a", "b", "c"] "me")
    ⟨"x", "1"⟩ 0 (by decide)
  exact ⟨h.1, h.2.2.2.2.2⟩

/-- C8: a successful `handle_put` of `{key, value}` followed by a
`handle_get` of the same key on the same node returns the payload with
exactly the written value. -/
theorem put_then_get (n : Node) (p : Entry) (confirms : Nat)
    (h : (n.handle_put p confirms).1 = true) :
    ((n.handle_put p confirms).2).handle_get p.key = some ⟨p.key, p.value⟩ := by
  unfold Node.handle_put at h ⊢
  dsimp only at h ⊢
  split at h
  · simp at h
  · rename_i hok
    rw [if_neg hok]
    unfold Node.handle_get
    simp [Node.commitWith]

/-- Witness for C8: in a single-node cluster (majority 1) the put
succeeds with no confirmations and the get reads the value back. -/
theorem put_then_get_witness :
    (((Node.init [] "me").handle_put ⟨"x", "1"⟩ 0).2).handle_get "x" =
      some ⟨"x", "1"⟩ :=
  put_then_get (Node.init [] "me") ⟨"x", "1"⟩ 0 (by decide)

lemma randrange_eq (lo hi draw : Nat) (h : lo < hi) :
    randrange lo hi draw = some (lo + draw % (hi - lo)) := by
  unfold randrange
  rw [if_pos h]

lemma randrange_lt (lo hi draw : Nat) (h : lo < hi) :
    lo + draw % (hi - lo) < hi := by
  have := Nat.mod_lt draw (show 0 < hi - lo by omega)
  omega

/-- C9 counterexample: with `LOW_TIMEOUT = HIGH_TIMEOUT = 150` (a
configuration the claim quantifies over, and one the swap does not
repair), Python's `random.randrange(150, 150)` raises `ValueError` on an
empty range — modeled as `none` — so `random_timeout` returns no value
at all, in particular none lying in the closed interval. -/
theorem random_timeout_degenerate : random_timeout 150 150 0 = none := rfl

/-- C9 amended: for every configuration with `LOW_TIMEOUT ≠ HIGH_TIMEOUT`
and every draw, `random_timeout` returns a value that, expressed in
milliseconds, lies in the closed interval between the two bounds (the
bounds being swapped first when LOW_TIMEOUT > HIGH_TIMEOUT), so
elections still occur in that case. -/
theorem random_timeout_range (lowT highT draw : Nat) (h : lowT ≠ highT) :
    ∃ v : ℚ, random_timeout lowT highT draw = some v ∧
      ((min lowT highT : Nat) : ℚ) ≤ 1000 * v ∧
      1000 * v ≤ ((max lowT highT : Nat) : ℚ) := by
  rcases Nat.lt_or_ge highT lowT with hlt | hge
  · refine ⟨((highT + draw % (lowT - highT) : Nat) : ℚ) / 1000, ?_, ?_, ?_⟩
    · unfold random_timeout
      rw [if_pos hlt]
      dsimp only
      rw [randrange_eq highT lowT draw hlt]
      rfl
    · have hmin : min lowT highT = highT := by omega
      rw [hmin]
      have h1000 : (1000 : ℚ) * (((highT + draw % (lowT - highT) : Nat) : ℚ) / 1000)
          = ((highT + draw % (lowT - highT) : Nat) : ℚ) := by
        rw [mul_comm]
        exact div_mul_cancel₀ _ (by norm_num)
      rw [h1000]
      exact_mod_cast Nat.le_add_right highT (draw % (lowT - highT))
    · have hmax : max lowT highT = lowT := by omega
      rw [hmax]
      have h1000 : (1000 : ℚ) * (((highT + draw % (lowT - highT) : Nat) : ℚ) / 1000)
          = ((highT + draw % (lowT - highT) : Nat) : ℚ) := by
        rw [mul_comm]
        exact div_mul_cancel₀ _ (by norm_num)
      rw [h1000]
      exact_mod_cast Nat.le_of_lt (randrange_lt highT lowT draw hlt)
  · have hlt2 : lowT < highT := by omega
    refine ⟨((lowT + draw % (highT - lowT) : Nat) : ℚ) / 1000, ?_, ?_, ?_⟩
    · unfold random_timeout
      rw [if_neg (show ¬ highT < lowT by omega)]
      dsimp only
      rw [randrange_eq lowT highT draw hlt2]
      rfl
    · have hmin : min lowT highT = lowT := by omega
      rw [hmin]
      have h1000 : (1000 : ℚ) * (((lowT + draw % (highT - lowT) : Nat) : ℚ) / 1000)
          = ((lowT + draw % (highT - lowT) : Nat) : ℚ) := by
        rw [mul_comm]
        exact div_mul_cancel₀ _ (by norm_num)
      rw [h1000]
      exact_mod_cast Nat.le_add_right lowT (draw % (highT - lowT))
    · have hmax : max lowT highT = highT := by omega
      rw [hmax]
      have h1000 : (1000 : ℚ) * (((lowT + draw % (highT - lowT) : Nat) : ℚ) / 1000)
          = ((lowT + draw % (highT - lowT) : Nat) : ℚ) := by
        rw [mul_comm]
        exact div_mul_cancel₀ _ (by norm_num)
      rw [h1000]
      exact_mod_cast Nat.le_of_lt (randrange_lt lowT highT draw hlt2)

/-- Witness for C9's amended theorem with the bounds given in reverse
order (LOW_TIMEOUT = 300 > HIGH_TIMEOUT = 150). -/
theorem random_timeout_range_witness :
    ∃ v : ℚ, random_timeout 300 150 7 = some v ∧
      ((min 300 150 : Nat) : ℚ) ≤ 1000 * v ∧
      1000 * v ≤ ((max 300 150 : Nat) : ℚ) :=
  random_timeout_range 300 150 7 (by decide)
